import Mathlib

/-!
Shallow embedding of the request handler of the hantei-app repository
(reference implementation: the refined serverless handler with input-length
check, case folding and score clamping), together with theorems checking the
specification's claims about it.

Modelling conventions:
* The three outbound generative-API calls are opaque collaborators; the
  handler is embedded as a deterministic function of the three call results,
  each of which is either a parsed payload or a typed error message.
* JavaScript numbers are embedded as `Int` (all arithmetic here is integral
  except the collective score, which uses `ℚ` for its half points).
* A JSON field that may be missing is embedded as an `Option`; the
  JavaScript `x || 0` / `x || ""` defaulting becomes `Option.getD`.
* String length is counted in UTF-16 code units (`jsLength`, what the
  source's `tweetText.length` counts) and trimming (`jsTrim`) strips the
  ECMAScript whitespace set; the regex alternations of literal keywords are
  embedded as substring tests over the character list of the (case-folded)
  text.
* The object-literal lookup `riskToScore[v]` inherits `Object.prototype`;
  the faithful lookup including inherited member names is `riskToScoreLookup`
  / `baseScoreJs`, while the scoring pipeline's `baseScore` is the integer
  restriction of that lookup to level strings that are not inherited member
  names (which is every value of the spec's data model).
-/

namespace HanteiApp

/-- A keyword occurs in the text: `needle.isSubstrOf hay` is true iff the
character list `needle` is a contiguous infix of `hay`.  This embeds the
JavaScript `/k1|k2|.../.test(text)` for alternations of literal keywords. -/
def isSubstrOf (needle : List Char) : List Char → Bool
  | [] => needle.isPrefixOf []
  | c :: rest => needle.isPrefixOf (c :: rest) || isSubstrOf needle rest

/-- Case folding applied to the text before keyword matching, embedding
`tweetText.toLowerCase()` (ASCII range; the keywords themselves contain no
cased letters, so this matches the JavaScript behavior on them). -/
def jsToLowerCase (s : String) : String :=
  String.mk (s.toList.map Char.toLower)

/-- The code points stripped by `String.prototype.trim`: the ECMAScript
WhiteSpace set (TAB, VT, FF, SP, NBSP, ZWNBSP and the Unicode
space-separator category, including U+3000 ideographic space) and the
LineTerminator set (LF, CR, LS, PS). -/
def jsWhitespaceCodes : List Nat :=
  [0x9, 0xA, 0xB, 0xC, 0xD, 0x20, 0xA0, 0x1680,
   0x2000, 0x2001, 0x2002, 0x2003, 0x2004, 0x2005, 0x2006, 0x2007,
   0x2008, 0x2009, 0x200A, 0x2028, 0x2029, 0x202F, 0x205F, 0x3000, 0xFEFF]

/-- A character is whitespace for `trim()`. -/
def jsWhitespace (c : Char) : Bool :=
  jsWhitespaceCodes.contains c.toNat

/-- `text.trim()`: strip leading and trailing ECMAScript whitespace,
embedded structurally over the character list so that it evaluates by
kernel reduction. -/
def jsTrim (s : String) : String :=
  String.mk (((s.toList.dropWhile jsWhitespace).reverse.dropWhile
    jsWhitespace).reverse)

/-- `text.length` in JavaScript: the number of UTF-16 code units, so an
astral-plane character (code point ≥ 0x10000) counts twice. -/
def jsLength (s : String) : Nat :=
  s.toList.foldl (fun n c => n + (if c.toNat < 0x10000 then 1 else 2)) 0

/-- `testAny kws t` embeds `/kw1|kw2|.../.test(t)`: some keyword of the
alternation occurs in `t`. -/
def testAny (kws : List String) (t : String) : Bool :=
  kws.any fun k => isSubstrOf k.toList t.toList

/-- Rule 1 keyword list (violent-intent terms): `/殺す|刺す|めった刺し|放火/`. -/
def rule1Keywords : List String := ["殺す", "刺す", "めった刺し", "放火"]

/-- Rule 2 keyword list (death-wish terms): `/死ね|生きる価値|犯罪者/`. -/
def rule2Keywords : List String := ["死ね", "生きる価値", "犯罪者"]

/-- Rule 3 keyword list (illegality terms): `/違法|逮捕|前科|横領/`. -/
def rule3Keywords : List String := ["違法", "逮捕", "前科", "横領"]

/-- Rule 4 keyword list (personal-insult terms). -/
def rule4Keywords : List String :=
  ["バカ", "アホ", "無能", "キモい", "頭が悪い", "ブス", "デブ", "ハゲ", "醜い", "チビ"]

/-- Rule 5 keyword list (corporate-misconduct terms): `/倒産|ブラック企業|隠蔽|パワハラ|セクハラ/`. -/
def rule5Keywords : List String := ["倒産", "ブラック企業", "隠蔽", "パワハラ", "セクハラ"]

/-- Result of the first API call (`aiResult`): three categorical risk levels
(each expected to be one of `"高"`, `"中"`, `"低"`, but any string may arrive)
plus a free-text reason. -/
structure RiskAssessment where
  legal_risk : String
  corporate_risk : String
  emotional_discomfort : String
  reason : String
deriving DecidableEq

/-- Result of the second API call (`adjustments`): three integer adjustment
fields, each possibly missing (`none` embeds an absent/undefined field, which
the code defaults to `0` via `|| 0`). -/
structure Adjustment where
  bengo_adjust : Option Int
  houmu_adjust : Option Int
  onee_adjust : Option Int
deriving DecidableEq

/-- Result of the third API call (`comments`): three comment strings, each
possibly missing (defaulted to `""` via `|| ""`). -/
structure Comments where
  bengo_comment : Option String
  houmu_comment : Option String
  onee_comment : Option String
deriving DecidableEq

/-- The triple of persona scores (bengo = legal, houmu = corporate,
onee = emotional). -/
structure Scores where
  bengo : Int
  houmu : Int
  onee : Int
deriving DecidableEq

/-- The own properties of the map `riskToScore = { "高": 4, "中": 2, "低": 1 }`
as a partial lookup. -/
def riskToScore (s : String) : Option Int :=
  if s = "高" then some 4 else if s = "中" then some 2
  else if s = "低" then some 1 else none

/-- `riskToScore[v] || 1` restricted to level strings whose lookup is numeric
or undefined: base score 4/2/1 for the recognized levels, default 1
otherwise.  All own values of the map are nonzero, so JavaScript `||` is
`Option.getD` there.  This integer restriction is what the scoring pipeline
uses; it is not faithful for level strings naming inherited
`Object.prototype` members, whose general lookup is `baseScoreJs` below. -/
def baseScore (s : String) : Int :=
  (riskToScore s).getD 1

/-- The value categories a JavaScript property read on the object literal
can produce: an own numeric entry, a truthy non-numeric member inherited
from `Object.prototype`, or `undefined`. -/
inductive JsProp where
  | num (n : Int)
  | inherited
  | undefinedVal
deriving DecidableEq

/-- The member names an object literal inherits from `Object.prototype`, for
which `riskToScore[v]` yields a truthy function or object instead of
`undefined`. -/
def objectPrototypeKeys : List String :=
  ["constructor", "hasOwnProperty", "isPrototypeOf", "propertyIsEnumerable",
   "toLocaleString", "toString", "valueOf", "__proto__", "__defineGetter__",
   "__defineSetter__", "__lookupGetter__", "__lookupSetter__"]

/-- The full JavaScript lookup `riskToScore[v]`, prototype chain included:
an own numeric property for the three recognized levels, an inherited
truthy member for `Object.prototype` member names, `undefined` otherwise. -/
def riskToScoreLookup (s : String) : JsProp :=
  if s = "高" then .num 4
  else if s = "中" then .num 2
  else if s = "低" then .num 1
  else if s ∈ objectPrototypeKeys then .inherited
  else .undefinedVal

/-- `riskToScore[v] || 1` over the full lookup: the `|| 1` default fires
only when the lookup is falsy (`undefined`); an inherited truthy member
survives and poisons the downstream arithmetic. -/
def baseScoreJs (s : String) : JsProp :=
  match riskToScoreLookup s with
  | .undefinedVal => .num 1
  | p => p

/-- A 501-character string of astral-plane emoji: 501 code points but 1002
UTF-16 code units. -/
def emojiText : String :=
  String.mk (List.replicate 501 '😀')

/-- The pre-adjustment ("primary") persona scores: categorical base scores
followed by the six heuristic rules, applied cumulatively in source order
against the case-folded text.  Rule 1 overwrites `bengo` and `onee`; all
other contributions are additive. -/
def primaryScores (aiResult : RiskAssessment) (tweetText : String) : Scores :=
  let bengo0 := baseScore aiResult.legal_risk
  let houmu0 := baseScore aiResult.corporate_risk
  let onee0 := baseScore aiResult.emotional_discomfort
  let text := jsToLowerCase tweetText
  let (b1, h1, o1) :=
    if testAny rule1Keywords text then (9, houmu0 + 4, 10) else (bengo0, houmu0, onee0)
  let (b2, h2, o2) :=
    if testAny rule2Keywords text then (b1 + 4, h1 + 2, o1 + 5) else (b1, h1, o1)
  let (b3, h3) :=
    if testAny rule3Keywords text then (b2 + 3, h2 + 3) else (b2, h2)
  let (b4, o4) :=
    if testAny rule4Keywords text then (b3 + 2, o2 + 3) else (b3, o2)
  let (b5, h5) :=
    if testAny rule5Keywords text then (b4 + 2, h3 + 4) else (b4, h3)
  let o6 := if aiResult.emotional_discomfort = "高" then o4 + 2 else o4
  ⟨b5, h5, o6⟩

/-- `clamp(value, min, max) = Math.max(min, Math.min(max, value))`. -/
def clamp (value minV maxV : Int) : Int :=
  max minV (min maxV value)

/-- The final persona scores: primary score plus the (defaulted) AI
adjustment, clamped to `[0, 10]`. -/
def finalScores (aiResult : RiskAssessment) (adjustments : Adjustment)
    (tweetText : String) : Scores :=
  let p := primaryScores aiResult tweetText
  ⟨clamp (p.bengo + adjustments.bengo_adjust.getD 0) 0 10,
   clamp (p.houmu + adjustments.houmu_adjust.getD 0) 0 10,
   clamp (p.onee + adjustments.onee_adjust.getD 0) 0 10⟩

/-- `getHantei(score, sansei, chuuritsu)`: the three-way verdict from a score
and two thresholds (favor = "開示に賛成", neutral = "中立",
oppose = "開示に反対"). -/
def getHantei (score sansei chuuritsu : Int) : String :=
  if score ≥ sansei then "開示に賛成"
  else if score ≥ chuuritsu then "中立"
  else "開示に反対"

/-- The per-persona verdicts (`hanteiFlags`). -/
structure HanteiFlags where
  bengo : String
  houmu : String
  onee : String
deriving DecidableEq

/-- `hanteiFlags`: the three persona verdicts with the source's persona
thresholds: bengo (5,3), houmu (5,4), onee (5,3). -/
def hanteiFlagsOf (scores : Scores) : HanteiFlags :=
  ⟨getHantei scores.bengo 5 3, getHantei scores.houmu 5 4, getHantei scores.onee 5 3⟩

/-- One verdict's contribution to the collective (gougi) score: the source
adds 1 for favor and 0.5 for neutral in two separate conditionals. -/
def hanteiPoint (hantei : String) : ℚ :=
  (if hantei = "開示に賛成" then 1 else 0) +
  (if hantei = "中立" then (1 : ℚ) / 2 else 0)

/-- The collective score: the fold over `Object.values(hanteiFlags)`
accumulating each verdict's points, starting from 0. -/
def gougiScoreOf (flags : HanteiFlags) : ℚ :=
  [flags.bengo, flags.houmu, flags.onee].foldl (fun acc h => acc + hanteiPoint h) 0

/-- The collective label and class tag: the threshold chain on the collective
score, then the legal-override rewrite when `bengoScore ≥ 7` and the
collective score is below 2. -/
def gougiResultOf (gougiScore : ℚ) (bengoScore : Int) : String × String :=
  let rc :=
    if gougiScore ≥ 2 then ("開示の可能性 大！", "gougi-kettei")
    else if gougiScore ≥ 1 then ("開示の可能性あり (意見割れ)", "gougi-ware")
    else ("見送り (開示は困難)", "gougi-miokuri")
  if bengoScore ≥ 7 ∧ gougiScore < 2 then ("弁護士暴走！開示請求すべき！", "gougi-kettei")
  else rc

/-- `getPrefix(hantei, persona)`: the fixed verdict prefix label per persona.
When the verdict string is neutral but the persona tag is unrecognized, the
source falls through to the final oppose-style return, which this embedding
mirrors. -/
def getPrefixLabel (hantei persona : String) : String :=
  if hantei = "開示に賛成" then
    (if persona = "onee" then "【判定：賛成よ！】" else "【判定：開示に賛成】")
  else if hantei = "中立" ∧ persona = "bengo" then "【判定：中立（要検討）】"
  else if hantei = "中立" ∧ persona = "houmu" then "【判定：中立（要監視）】"
  else if hantei = "中立" ∧ persona = "onee" then "【判定：どっちとも言えないわね】"
  else if persona = "onee" then "【判定：反対よ！】"
  else "【判定：開示に反対】"

/-- The fallback comment substituted for all three personas when the third
API call fails. -/
def fallbackComment : String := "技術的な問題により、詳細なコメントを生成できませんでした。"

/-- The `tweetText` field of the request body: absent (or another falsy
value), present but not a string, or a string. -/
inductive BodyText where
  | absent
  | nonString
  | str (s : String)
deriving DecidableEq

/-- The outcome of one generative-API call: a parsed payload of type `α`, or
a typed error message (transport / block / parse failure). -/
inductive ApiResult (α : Type) where
  | ok (a : α)
  | err (msg : String)
deriving DecidableEq

/-- The input validator: `some errorMessage` when the request body is
rejected (absent or non-string text, empty after trimming, or longer than
1000 characters), `none` when the text passes validation. -/
def validateInput : BodyText → Option String
  | .absent => some "判定するテキストがありません。"
  | .nonString => some "判定するテキストがありません。"
  | .str s =>
    if s = "" ∨ jsTrim s = "" then some "判定するテキストがありません。"
    else if jsLength s > 1000 then some "テキストが長すぎます（最大1000文字）。"
    else none

/-- The success payload (`finalResponse`). -/
structure FinalResponse where
  gougi : String
  gougiClass : String
  bengo : String
  houmu : String
  onee : String
  ai_reason : String
deriving DecidableEq

/-- The handler's observable outcome, one constructor per `return` path. -/
inductive HandlerResult where
  | methodNotAllowed
  | noApiKey
  | invalidInput (msg : String)
  | upstreamError (msg : String)
  | success (resp : FinalResponse)
deriving DecidableEq

/-- The HTTP status code of each outcome. -/
def HandlerResult.status : HandlerResult → Nat
  | .methodNotAllowed => 405
  | .noApiKey => 500
  | .invalidInput _ => 400
  | .upstreamError _ => 500
  | .success _ => 200

/-- The pipeline stage after validation: abort on a first-call error,
otherwise substitute zero adjustments on a second-call error and the
fallback commentary on a third-call error, score, judge, aggregate and
assemble the success payload. -/
def processText (tweetText : String) (riskResult : ApiResult RiskAssessment)
    (adjResult : ApiResult Adjustment) (commentResult : ApiResult Comments) :
    HandlerResult :=
  match riskResult with
  | .err e => .upstreamError e
  | .ok aiResult =>
    let adjustments :=
      match adjResult with
      | .ok a => a
      | .err _ => (⟨some 0, some 0, some 0⟩ : Adjustment)
    let scores := finalScores aiResult adjustments tweetText
    let flags := hanteiFlagsOf scores
    let comments :=
      match commentResult with
      | .ok c => c
      | .err _ => (⟨some fallbackComment, some fallbackComment, some fallbackComment⟩ : Comments)
    let rc := gougiResultOf (gougiScoreOf flags) scores.bengo
    .success
      ⟨rc.1, rc.2,
       getPrefixLabel flags.bengo "bengo" ++ " " ++ comments.bengo_comment.getD "",
       getPrefixLabel flags.houmu "houmu" ++ " " ++ comments.houmu_comment.getD "",
       getPrefixLabel flags.onee "onee" ++ " " ++ comments.onee_comment.getD "",
       if aiResult.reason = "" then "分析情報を取得できませんでした" else aiResult.reason⟩

/-- The request handler: method check, API-key check (a missing or empty
key is falsy), input validation, then the three-call pipeline.  The three
call results stand in for the outbound calls. -/
def handler (method : String) (apiKey : Option String) (body : BodyText)
    (riskResult : ApiResult RiskAssessment) (adjResult : ApiResult Adjustment)
    (commentResult : ApiResult Comments) : HandlerResult :=
  if method ≠ "POST" then .methodNotAllowed
  else if apiKey.getD "" = "" then .noApiKey
  else
    match body with
    | .absent => .invalidInput "判定するテキストがありません。"
    | .nonString => .invalidInput "判定するテキストがありません。"
    | .str tweetText =>
      match validateInput (.str tweetText) with
      | some msg => .invalidInput msg
      | none => processText tweetText riskResult adjResult commentResult

/-- Rank of a verdict string in the order oppose < neutral < favor, used to
state monotonicity of the verdict in the score. -/
def hanteiRank (hantei : String) : Nat :=
  if hantei = "開示に賛成" then 2 else if hantei = "中立" then 1 else 0

/-- Every clamped value lies in the clamping interval `[0, 10]`. -/
theorem clamp_zero_ten (v : Int) : 0 ≤ clamp v 0 10 ∧ clamp v 0 10 ≤ 10 :=
  ⟨le_max_left 0 _, max_le (by norm_num) (min_le_left _ _)⟩

/-- **C1.** For every risk assessment, every adjustment object (including
missing or out-of-range adjustment values) and every input text, each of the
three final persona scores (bengo = legal, houmu = corporate, onee =
emotional) lies in `[0, 10]`. -/
theorem c1_scores_clamped (aiResult : RiskAssessment) (adjustments : Adjustment)
    (tweetText : String) :
    (0 ≤ (finalScores aiResult adjustments tweetText).bengo ∧
      (finalScores aiResult adjustments tweetText).bengo ≤ 10) ∧
    (0 ≤ (finalScores aiResult adjustments tweetText).houmu ∧
      (finalScores aiResult adjustments tweetText).houmu ≤ 10) ∧
    (0 ≤ (finalScores aiResult adjustments tweetText).onee ∧
      (finalScores aiResult adjustments tweetText).onee ≤ 10) :=
  ⟨clamp_zero_ten _, clamp_zero_ten _, clamp_zero_ten _⟩

/-- The three-way verdict, characterized by its thresholds (for threshold
pairs with `chuuritsu ≤ sansei`, as all three personas have). -/
theorem getHantei_iff (score sansei chuuritsu : Int) (hth : chuuritsu ≤ sansei) :
    (getHantei score sansei chuuritsu = "開示に賛成" ↔ sansei ≤ score) ∧
    (getHantei score sansei chuuritsu = "中立" ↔ chuuritsu ≤ score ∧ score < sansei) ∧
    (getHantei score sansei chuuritsu = "開示に反対" ↔ score < chuuritsu) := by
  unfold getHantei
  split_ifs with h1 h2 <;>
    refine ⟨?_, ?_, ?_⟩ <;> simp_all <;> omega

/-- **C6.** The legal persona's verdict is favor iff its score is ≥ 5,
neutral iff the score is in `[3, 5)`, else oppose; the corporate persona's
verdict is favor iff ≥ 5, neutral iff in `[4, 5)`, else oppose; the
emotional persona uses the same thresholds (5 and 3) as the legal persona. -/
theorem c6_verdict_thresholds (scores : Scores) :
    ((hanteiFlagsOf scores).bengo = "開示に賛成" ↔ 5 ≤ scores.bengo) ∧
    ((hanteiFlagsOf scores).bengo = "中立" ↔ 3 ≤ scores.bengo ∧ scores.bengo < 5) ∧
    ((hanteiFlagsOf scores).bengo = "開示に反対" ↔ scores.bengo < 3) ∧
    ((hanteiFlagsOf scores).houmu = "開示に賛成" ↔ 5 ≤ scores.houmu) ∧
    ((hanteiFlagsOf scores).houmu = "中立" ↔ 4 ≤ scores.houmu ∧ scores.houmu < 5) ∧
    ((hanteiFlagsOf scores).houmu = "開示に反対" ↔ scores.houmu < 4) ∧
    ((hanteiFlagsOf scores).onee = getHantei scores.onee 5 3) ∧
    ((hanteiFlagsOf scores).onee = "開示に賛成" ↔ 5 ≤ scores.onee) ∧
    ((hanteiFlagsOf scores).onee = "中立" ↔ 3 ≤ scores.onee ∧ scores.onee < 5) ∧
    ((hanteiFlagsOf scores).onee = "開示に反対" ↔ scores.onee < 3) := by
  obtain ⟨b1, b2, b3⟩ := getHantei_iff scores.bengo 5 3 (by norm_num)
  obtain ⟨h1, h2, h3⟩ := getHantei_iff scores.houmu 5 4 (by norm_num)
  obtain ⟨o1, o2, o3⟩ := getHantei_iff scores.onee 5 3 (by norm_num)
  exact ⟨b1, b2, b3, h1, h2, h3, rfl, o1, o2, o3⟩

/-- Verdict rank is monotone in the score, for any threshold pair. -/
theorem getHantei_rank_mono (sansei chuuritsu s1 s2 : Int) (h : s1 ≤ s2) :
    hanteiRank (getHantei s1 sansei chuuritsu) ≤ hanteiRank (getHantei s2 sansei chuuritsu) := by
  unfold getHantei
  split_ifs <;> first | decide | (exfalso; omega)

/-- **C9.** For each persona's threshold pair — (5, 3) for the legal and
emotional personas and (5, 4) for the corporate persona — the verdict is
monotone in the score in the order oppose < neutral < favor: increasing a
score never moves the verdict backwards. -/
theorem c9_verdict_monotone (s1 s2 : Int) (h : s1 ≤ s2) :
    hanteiRank (getHantei s1 5 3) ≤ hanteiRank (getHantei s2 5 3) ∧
    hanteiRank (getHantei s1 5 4) ≤ hanteiRank (getHantei s2 5 4) :=
  ⟨getHantei_rank_mono 5 3 s1 s2 h, getHantei_rank_mono 5 4 s1 s2 h⟩

/-- Witness for C9 at the concrete scores 2 ≤ 7. -/
theorem c9_verdict_monotone_witness :
    (2 : Int) ≤ 7 ∧
    (hanteiRank (getHantei 2 5 3) ≤ hanteiRank (getHantei 7 5 3) ∧
     hanteiRank (getHantei 2 5 4) ≤ hanteiRank (getHantei 7 5 4)) :=
  ⟨by decide, c9_verdict_monotone 2 7 (by decide)⟩

/-- **C10.** A request whose method is not POST is answered with 405 Method
Not Allowed, independently of the API key, the body and all three call
results: no validation, key check or external call affects the outcome. -/
theorem c10_method_not_allowed (method : String) (apiKey : Option String)
    (body : BodyText) (riskResult : ApiResult RiskAssessment)
    (adjResult : ApiResult Adjustment) (commentResult : ApiResult Comments)
    (h : method ≠ "POST") :
    handler method apiKey body riskResult adjResult commentResult = .methodNotAllowed ∧
    (handler method apiKey body riskResult adjResult commentResult).status = 405 := by
  have heq : handler method apiKey body riskResult adjResult commentResult = .methodNotAllowed := by
    simp [handler, h]
  exact ⟨heq, by rw [heq]; rfl⟩

/-- Witness for C10 at a concrete GET request. -/
theorem c10_method_not_allowed_witness :
    "GET" ≠ "POST" ∧
    (handler "GET" (some "key") (.str "こんにちは") (.ok ⟨"高", "中", "低", "r"⟩)
        (.err "e2") (.err "e3") = .methodNotAllowed ∧
      (handler "GET" (some "key") (.str "こんにちは") (.ok ⟨"高", "中", "低", "r"⟩)
        (.err "e2") (.err "e3")).status = 405) :=
  ⟨by decide, c10_method_not_allowed "GET" (some "key") (.str "こんにちは")
    (.ok ⟨"高", "中", "低", "r"⟩) (.err "e2") (.err "e3") (by decide)⟩

/-- The base score is always one of 4, 2, 1, hence within the clamp range. -/
theorem baseScore_bounds (s : String) : 0 ≤ baseScore s ∧ baseScore s ≤ 10 := by
  unfold baseScore riskToScore
  split_ifs <;> decide

/-- Clamping to `[0, 10]` is the identity on values already in the range. -/
theorem clamp_of_bounds (v : Int) (h0 : 0 ≤ v) (h10 : v ≤ 10) : clamp v 0 10 = v := by
  unfold clamp
  rw [min_eq_right h10, max_eq_right h0]

/-- **C7, counterexample.** The level string "toString" is unrecognized, yet
the lookup `riskToScore["toString"]` finds the inherited `Object.prototype`
member — a truthy function — so `|| 1` never fires and the base is not 1. -/
theorem c7_counterexample :
    ("toString" ≠ "高" ∧ "toString" ≠ "中" ∧ "toString" ≠ "低") ∧
    baseScoreJs "toString" ≠ JsProp.num 1 := by
  decide

/-- **C7, amended.** The categorical base-score lookup yields 4 for 高, 2 for
中, 1 for 低, and 1 for any unrecognized value that is not an inherited
`Object.prototype` member name (on those it agrees with the pipeline's
integer base score); and when none of the six heuristic rules fires (no
keyword rule 1–5 matches and the emotional-discomfort bonus rule does not
apply), all three adjustments are zero, and no categorical level names an
inherited member, each persona's final score is exactly its base score. -/
theorem c7_base_score (aiResult : RiskAssessment) (adjustments : Adjustment)
    (tweetText : String)
    (hpl : aiResult.legal_risk ∉ objectPrototypeKeys)
    (hpc : aiResult.corporate_risk ∉ objectPrototypeKeys)
    (hpe : aiResult.emotional_discomfort ∉ objectPrototypeKeys)
    (h1 : testAny rule1Keywords (jsToLowerCase tweetText) = false)
    (h2 : testAny rule2Keywords (jsToLowerCase tweetText) = false)
    (h3 : testAny rule3Keywords (jsToLowerCase tweetText) = false)
    (h4 : testAny rule4Keywords (jsToLowerCase tweetText) = false)
    (h5 : testAny rule5Keywords (jsToLowerCase tweetText) = false)
    (h6 : aiResult.emotional_discomfort ≠ "高")
    (ha : adjustments.bengo_adjust.getD 0 = 0)
    (hb : adjustments.houmu_adjust.getD 0 = 0)
    (hc : adjustments.onee_adjust.getD 0 = 0) :
    baseScoreJs "高" = JsProp.num 4 ∧ baseScoreJs "中" = JsProp.num 2 ∧
    baseScoreJs "低" = JsProp.num 1 ∧
    (∀ v : String, v ∉ objectPrototypeKeys → v ≠ "高" → v ≠ "中" → v ≠ "低" →
      baseScoreJs v = JsProp.num 1) ∧
    (∀ v : String, v ∉ objectPrototypeKeys → baseScoreJs v = JsProp.num (baseScore v)) ∧
    baseScoreJs aiResult.legal_risk = JsProp.num (baseScore aiResult.legal_risk) ∧
    baseScoreJs aiResult.corporate_risk = JsProp.num (baseScore aiResult.corporate_risk) ∧
    baseScoreJs aiResult.emotional_discomfort
      = JsProp.num (baseScore aiResult.emotional_discomfort) ∧
    finalScores aiResult adjustments tweetText =
      ⟨baseScore aiResult.legal_risk, baseScore aiResult.corporate_risk,
       baseScore aiResult.emotional_discomfort⟩ := by
  have hbridge : ∀ v : String, v ∉ objectPrototypeKeys →
      baseScoreJs v = JsProp.num (baseScore v) := by
    intro v hv
    by_cases e1 : v = "高"
    · subst e1; decide
    · by_cases e2 : v = "中"
      · subst e2; decide
      · by_cases e3 : v = "低"
        · subst e3; decide
        · simp [baseScoreJs, riskToScoreLookup, baseScore, riskToScore, e1, e2, e3, hv]
  refine ⟨by decide, by decide, by decide, ?_, hbridge,
    hbridge _ hpl, hbridge _ hpc, hbridge _ hpe, ?_⟩
  · intro v hv hv1 hv2 hv3
    simp [baseScoreJs, riskToScoreLookup, hv, hv1, hv2, hv3]
  · have hp : primaryScores aiResult tweetText =
        ⟨baseScore aiResult.legal_risk, baseScore aiResult.corporate_risk,
         baseScore aiResult.emotional_discomfort⟩ := by
      simp [primaryScores, h1, h2, h3, h4, h5, h6]
    have hbb := baseScore_bounds aiResult.legal_risk
    have hbh := baseScore_bounds aiResult.corporate_risk
    have hbo := baseScore_bounds aiResult.emotional_discomfort
    simp only [finalScores, hp, ha, hb, hc, add_zero]
    rw [clamp_of_bounds _ hbb.1 hbb.2, clamp_of_bounds _ hbh.1 hbh.2,
        clamp_of_bounds _ hbo.1 hbo.2]

/-- Witness for the amended C7: a text matching no keyword rule, recognized
categorical levels (none an inherited member name), zero adjustments. -/
theorem c7_base_score_witness :
    "高" ∉ objectPrototypeKeys ∧
    testAny rule1Keywords (jsToLowerCase "こんにちは") = false ∧
    finalScores ⟨"高", "中", "低", "r"⟩ ⟨some 0, some 0, some 0⟩ "こんにちは" =
      ⟨baseScore "高", baseScore "中", baseScore "低"⟩ :=
  ⟨by decide, by decide,
   (c7_base_score ⟨"高", "中", "低", "r"⟩ ⟨some 0, some 0, some 0⟩ "こんにちは"
      (by decide) (by decide) (by decide) (by decide) (by decide) (by decide)
      (by decide) (by decide) (by decide) (by decide) (by decide)
      (by decide)).2.2.2.2.2.2.2.2⟩

/-- **C2, counterexample.** On the input "殺す死ね" rule 1 matches, but rule 2
also fires afterwards and adds to both overwritten scores, so the
pre-adjustment scores are 13 and 15, not 9 and 10; and on the input "殺す"
with a high emotional-discomfort level, the later +2 discomfort rule lifts
the emotional score to 12.  Rule 1 matching alone does not pin the
pre-adjustment scores. -/
theorem c2_counterexample :
    (testAny rule1Keywords (jsToLowerCase "殺す死ね") = true ∧
      ¬((primaryScores ⟨"低", "低", "低", "r"⟩ "殺す死ね").bengo = 9 ∧
        (primaryScores ⟨"低", "低", "低", "r"⟩ "殺す死ね").onee = 10)) ∧
    (testAny rule1Keywords (jsToLowerCase "殺す") = true ∧
      ¬(primaryScores ⟨"低", "低", "高", "r"⟩ "殺す").onee = 10) := by
  decide

/-- **C2, amended.** If keyword rule 1 matches and no other heuristic rule
fires (rules 2–5 do not match and the emotional-discomfort bonus does not
apply), the pre-adjustment scores satisfy legal = 9 and emotional = 10,
regardless of the categorical base scores: rule 1 overwrites both. -/
theorem c2_rule1_overwrite (aiResult : RiskAssessment) (tweetText : String)
    (m1 : testAny rule1Keywords (jsToLowerCase tweetText) = true)
    (m2 : testAny rule2Keywords (jsToLowerCase tweetText) = false)
    (m3 : testAny rule3Keywords (jsToLowerCase tweetText) = false)
    (m4 : testAny rule4Keywords (jsToLowerCase tweetText) = false)
    (m5 : testAny rule5Keywords (jsToLowerCase tweetText) = false)
    (m6 : aiResult.emotional_discomfort ≠ "高") :
    (primaryScores aiResult tweetText).bengo = 9 ∧
    (primaryScores aiResult tweetText).onee = 10 := by
  simp [primaryScores, m1, m2, m3, m4, m5, m6]

/-- Witness for the amended C2: "放火" matches only rule 1, and the base
scores (high/high/medium) are overwritten to 9 and 10. -/
theorem c2_rule1_overwrite_witness :
    testAny rule1Keywords (jsToLowerCase "放火") = true ∧
    ((primaryScores ⟨"高", "高", "中", "r"⟩ "放火").bengo = 9 ∧
     (primaryScores ⟨"高", "高", "中", "r"⟩ "放火").onee = 10) :=
  ⟨by decide,
   c2_rule1_overwrite ⟨"高", "高", "中", "r"⟩ "放火" (by decide) (by decide)
     (by decide) (by decide) (by decide) (by decide)⟩

/-- **C8.** An input matching rule 2 (death-wish terms) and no other keyword
rule, with all three categorical levels 低 and zero adjustments, yields final
scores legal = 1+4 = 5 (verdict favor), corporate = 1+2 = 3 (verdict oppose,
corporate neutral threshold 4), emotional = 1+5 = 6 (verdict favor). -/
theorem c8_death_wish_scenario (reason : String) (adjustments : Adjustment)
    (tweetText : String)
    (m2 : testAny rule2Keywords (jsToLowerCase tweetText) = true)
    (m1 : testAny rule1Keywords (jsToLowerCase tweetText) = false)
    (m3 : testAny rule3Keywords (jsToLowerCase tweetText) = false)
    (m4 : testAny rule4Keywords (jsToLowerCase tweetText) = false)
    (m5 : testAny rule5Keywords (jsToLowerCase tweetText) = false)
    (ha : adjustments.bengo_adjust.getD 0 = 0)
    (hb : adjustments.houmu_adjust.getD 0 = 0)
    (hc : adjustments.onee_adjust.getD 0 = 0) :
    finalScores ⟨"低", "低", "低", reason⟩ adjustments tweetText = ⟨5, 3, 6⟩ ∧
    hanteiFlagsOf (finalScores ⟨"低", "低", "低", reason⟩ adjustments tweetText) =
      ⟨"開示に賛成", "開示に反対", "開示に賛成"⟩ := by
  have hp : primaryScores ⟨"低", "低", "低", reason⟩ tweetText = ⟨5, 3, 6⟩ := by
    simp [primaryScores, m1, m2, m3, m4, m5, baseScore, riskToScore]
  have hf : finalScores ⟨"低", "低", "低", reason⟩ adjustments tweetText = ⟨5, 3, 6⟩ := by
    simp only [finalScores, hp, ha, hb, hc]
    decide
  exact ⟨hf, by rw [hf]; decide⟩

/-- Witness for C8 on the input "死ね" (with one adjustment field missing,
which defaults to zero). -/
theorem c8_death_wish_scenario_witness :
    testAny rule2Keywords (jsToLowerCase "死ね") = true ∧
    (finalScores ⟨"低", "低", "低", "r"⟩ ⟨none, some 0, some 0⟩ "死ね" = ⟨5, 3, 6⟩ ∧
     hanteiFlagsOf (finalScores ⟨"低", "低", "低", "r"⟩ ⟨none, some 0, some 0⟩ "死ね") =
       ⟨"開示に賛成", "開示に反対", "開示に賛成"⟩) :=
  ⟨by decide,
   c8_death_wish_scenario "r" ⟨none, some 0, some 0⟩ "死ね" (by decide) (by decide)
     (by decide) (by decide) (by decide) (by decide) (by decide) (by decide)⟩

/-- The two-conditional point accumulation of the source equals a single
three-way case split: 1 for favor, 1/2 for neutral, 0 otherwise. -/
theorem hanteiPoint_eq (h : String) :
    hanteiPoint h = (if h = "開示に賛成" then (1 : ℚ) else if h = "中立" then 1 / 2 else 0) := by
  by_cases ha : h = "開示に賛成"
  · subst ha
    have hne : ("開示に賛成" : String) ≠ "中立" := by decide
    simp [hanteiPoint, hne]
  · by_cases hb : h = "中立"
    · subst hb
      have hne : ("中立" : String) ≠ "開示に賛成" := by decide
      simp [hanteiPoint, hne]
    · simp [hanteiPoint, ha, hb]

/-- **C5.** The collective score is the sum over the three persona verdicts
of 1 for favor, 1/2 for neutral and 0 for oppose; the collective label is the
class-A label when the sum is ≥ 2, the class-B label when 1 ≤ sum < 2 and
the class-C label when sum < 1; and the legal-override class-A label replaces
that result exactly when the legal score is ≥ 7 and the sum is < 2. -/
theorem c5_collective_verdict (scores : Scores) :
    (gougiScoreOf (hanteiFlagsOf scores) =
      (if (hanteiFlagsOf scores).bengo = "開示に賛成" then (1 : ℚ)
       else if (hanteiFlagsOf scores).bengo = "中立" then 1 / 2 else 0) +
      (if (hanteiFlagsOf scores).houmu = "開示に賛成" then (1 : ℚ)
       else if (hanteiFlagsOf scores).houmu = "中立" then 1 / 2 else 0) +
      (if (hanteiFlagsOf scores).onee = "開示に賛成" then (1 : ℚ)
       else if (hanteiFlagsOf scores).onee = "中立" then 1 / 2 else 0)) ∧
    (∀ (g : ℚ) (b : Int),
      gougiResultOf g b = ("弁護士暴走！開示請求すべき！", "gougi-kettei") ↔ b ≥ 7 ∧ g < 2) ∧
    (∀ (g : ℚ) (b : Int), g ≥ 2 →
      gougiResultOf g b = ("開示の可能性 大！", "gougi-kettei")) ∧
    (∀ (g : ℚ) (b : Int), g ≥ 1 → g < 2 → b < 7 →
      gougiResultOf g b = ("開示の可能性あり (意見割れ)", "gougi-ware")) ∧
    (∀ (g : ℚ) (b : Int), g < 1 → b < 7 →
      gougiResultOf g b = ("見送り (開示は困難)", "gougi-miokuri")) := by
  refine ⟨?_, ?_, ?_, ?_, ?_⟩
  · simp [gougiScoreOf, hanteiPoint_eq, zero_add]
  · intro g b
    simp only [gougiResultOf]
    split_ifs with h1 h2 h3
    · exact ⟨fun _ => h1, fun _ => rfl⟩
    · exact iff_of_false (by decide) h1
    · exact iff_of_false (by decide) h1
    · exact iff_of_false (by decide) h1
  · intro g b hg
    simp only [gougiResultOf]
    have hno : ¬(b ≥ 7 ∧ g < 2) := by
      rintro ⟨-, hlt⟩
      exact absurd hg (not_le.mpr hlt)
    rw [if_pos hg, if_neg hno]
  · intro g b h1 h2 hb
    simp only [gougiResultOf]
    have hno : ¬(b ≥ 7 ∧ g < 2) := by
      rintro ⟨hge, -⟩
      exact absurd hge (not_le.mpr hb)
    rw [if_neg (not_le.mpr h2), if_pos h1, if_neg hno]
  · intro g b h1 hb
    simp only [gougiResultOf]
    have hno : ¬(b ≥ 7 ∧ g < 2) := by
      rintro ⟨hge, -⟩
      exact absurd hge (not_le.mpr hb)
    rw [if_neg (not_le.mpr (lt_trans h1 one_lt_two)),
        if_neg (not_le.mpr h1), if_neg hno]

/-- Witness for C5: a split collective score 3/2 with a legal score below
the override threshold yields the class-B label. -/
theorem c5_collective_verdict_witness :
    (3 / 2 : ℚ) ≥ 1 ∧ (3 / 2 : ℚ) < 2 ∧ (5 : Int) < 7 ∧
    gougiResultOf (3 / 2) 5 = ("開示の可能性あり (意見割れ)", "gougi-ware") :=
  ⟨by norm_num, by norm_num, by norm_num,
   (c5_collective_verdict ⟨0, 0, 0⟩).2.2.2.1 (3 / 2) 5 (by norm_num) (by norm_num)
     (by norm_num)⟩

set_option maxRecDepth 4096 in
/-- **C4, counterexample.** 501 astral-plane emoji are 501 characters —
well under the 1000-character bound — and not whitespace, yet the validator
rejects the input, because the source's `tweetText.length` counts UTF-16
code units (here 1002): the rejection set is not characterized by character
count. -/
theorem c4_counterexample :
    (validateInput (.str emojiText)).isSome = true ∧
    jsTrim emojiText ≠ "" ∧
    emojiText.length = 501 ∧
    ¬(1000 < emojiText.length) := by
  decide

/-- **C4, amended.** The input validator rejects exactly the raw inputs that
are absent, not a string, empty after trimming, or longer than 1000 UTF-16
code units (what the source's `tweetText.length` counts); and any rejected
input is answered by the handler with the validator's message and a 400
status. -/
theorem c4_validator (b : BodyText) :
    ((validateInput b).isSome = true ↔
      b = .absent ∨ b = .nonString ∨
        ∃ s, b = .str s ∧ (jsTrim s = "" ∨ 1000 < jsLength s)) ∧
    (∀ (k : String) (riskResult : ApiResult RiskAssessment)
        (adjResult : ApiResult Adjustment) (commentResult : ApiResult Comments)
        (msg : String), k ≠ "" → validateInput b = some msg →
      handler "POST" (some k) b riskResult adjResult commentResult = .invalidInput msg ∧
      (handler "POST" (some k) b riskResult adjResult commentResult).status = 400) := by
  constructor
  · cases b with
    | absent => simp [validateInput]
    | nonString => simp [validateInput]
    | str s =>
      simp only [validateInput]
      by_cases hE : s = "" ∨ jsTrim s = ""
      · rw [if_pos hE]
        simp only [Option.isSome_some]
        constructor
        · intro _
          refine Or.inr (Or.inr ⟨s, rfl, Or.inl ?_⟩)
          rcases hE with he | ht
          · subst he; rfl
          · exact ht
        · intro _; trivial
      · rw [if_neg hE]
        by_cases hL : 1000 < jsLength s
        · rw [if_pos hL]
          simp only [Option.isSome_some]
          exact ⟨fun _ => Or.inr (Or.inr ⟨s, rfl, Or.inr hL⟩), fun _ => trivial⟩
        · rw [if_neg hL]
          simp only [Option.isSome_none]
          constructor
          · intro hfalse
            exact Bool.noConfusion hfalse
          · push_neg at hE
            rintro (h | h | ⟨s', hs', hcond⟩)
            · exact BodyText.noConfusion h
            · exact BodyText.noConfusion h
            · injection hs' with h'
              subst h'
              rcases hcond with h | h
              · exact (hE.2 h).elim
              · exact (hL h).elim
  · intro k riskResult adjResult commentResult msg hk hv
    have heq : handler "POST" (some k) b riskResult adjResult commentResult =
        .invalidInput msg := by
      cases b with
      | absent =>
        have hv' : some "判定するテキストがありません。" = some msg := hv
        obtain rfl := Option.some.inj hv'
        simp [handler, hk]
      | nonString =>
        have hv' : some "判定するテキストがありません。" = some msg := hv
        obtain rfl := Option.some.inj hv'
        simp [handler, hk]
      | str s =>
        have hstep : handler "POST" (some k) (.str s) riskResult adjResult commentResult =
            match validateInput (.str s) with
            | some m => .invalidInput m
            | none => processText s riskResult adjResult commentResult := by
          simp [handler, hk]
        rw [hstep, hv]
    exact ⟨heq, by rw [heq]; rfl⟩

/-- Witness for C4 on a whitespace-only input. -/
theorem c4_validator_witness :
    (validateInput (.str "   ")).isSome = true ∧
    handler "POST" (some "key") (.str "   ") (.ok ⟨"高", "中", "低", "r"⟩)
        (.ok ⟨some 0, some 0, some 0⟩) (.ok ⟨some "a", some "b", some "c"⟩) =
      .invalidInput "判定するテキストがありません。" :=
  ⟨(c4_validator (.str "   ")).1.mpr
      (Or.inr (Or.inr ⟨"   ", rfl, Or.inl (by decide)⟩)),
   ((c4_validator (.str "   ")).2 "key" (.ok ⟨"高", "中", "低", "r"⟩)
      (.ok ⟨some 0, some 0, some 0⟩) (.ok ⟨some "a", some "b", some "c"⟩)
      "判定するテキストがありません。" (by decide) (by decide)).1⟩

/-- **C3.** A failed first (risk-analysis) call aborts with a 500 response;
a failed second (adjustment) call is equivalent to receiving all-zero
adjustments; a failed third (commentary) call is equivalent to receiving the
fallback commentary for all three personas; and whenever the first call
succeeds the handler returns a 200 success, including both degraded cases. -/
theorem c3_error_policy (tweetText k e1 e3 : String) (e2 : String)
    (aiResult : RiskAssessment) (adjResult : ApiResult Adjustment)
    (commentResult : ApiResult Comments)
    (hk : k ≠ "") (hval : validateInput (.str tweetText) = none) :
    (handler "POST" (some k) (.str tweetText) (.err e1) adjResult commentResult).status = 500 ∧
    handler "POST" (some k) (.str tweetText) (.ok aiResult) (.err e2) commentResult =
      handler "POST" (some k) (.str tweetText) (.ok aiResult)
        (.ok ⟨some 0, some 0, some 0⟩) commentResult ∧
    handler "POST" (some k) (.str tweetText) (.ok aiResult) adjResult (.err e3) =
      handler "POST" (some k) (.str tweetText) (.ok aiResult) adjResult
        (.ok ⟨some fallbackComment, some fallbackComment, some fallbackComment⟩) ∧
    (handler "POST" (some k) (.str tweetText) (.ok aiResult) adjResult commentResult).status
      = 200 := by
  have hred : ∀ (rr : ApiResult RiskAssessment) (ar : ApiResult Adjustment)
      (cr : ApiResult Comments),
      handler "POST" (some k) (.str tweetText) rr ar cr = processText tweetText rr ar cr := by
    intro rr ar cr
    simp [handler, hk, hval]
  refine ⟨?_, ?_, ?_, ?_⟩
  · rw [hred]; rfl
  · rw [hred, hred]; rfl
  · rw [hred, hred]; rfl
  · rw [hred]; rfl

/-- Witness for C3 on a concrete valid request, exercising all three
degradation clauses. -/
theorem c3_error_policy_witness :
    validateInput (.str "こんにちは") = none ∧
    ((handler "POST" (some "key") (.str "こんにちは") (.err "e1")
        (.ok ⟨some 1, some 0, some (-1)⟩) (.ok ⟨some "a", some "b", some "c"⟩)).status = 500 ∧
      handler "POST" (some "key") (.str "こんにちは") (.ok ⟨"高", "中", "低", "r"⟩) (.err "e2")
          (.ok ⟨some "a", some "b", some "c"⟩) =
        handler "POST" (some "key") (.str "こんにちは") (.ok ⟨"高", "中", "低", "r"⟩)
          (.ok ⟨some 0, some 0, some 0⟩) (.ok ⟨some "a", some "b", some "c"⟩) ∧
      handler "POST" (some "key") (.str "こんにちは") (.ok ⟨"高", "中", "低", "r"⟩)
          (.ok ⟨some 1, some 0, some (-1)⟩) (.err "e3") =
        handler "POST" (some "key") (.str "こんにちは") (.ok ⟨"高", "中", "低", "r"⟩)
          (.ok ⟨some 1, some 0, some (-1)⟩)
          (.ok ⟨some fallbackComment, some fallbackComment, some fallbackComment⟩) ∧
      (handler "POST" (some "key") (.str "こんにちは") (.ok ⟨"高", "中", "低", "r"⟩)
          (.ok ⟨some 1, some 0, some (-1)⟩)
          (.ok ⟨some "a", some "b", some "c"⟩)).status = 200) :=
  ⟨by decide,
   c3_error_policy "こんにちは" "key" "e1" "e3" "e2" ⟨"高", "中", "低", "r"⟩
     (.ok ⟨some 1, some 0, some (-1)⟩) (.ok ⟨some "a", some "b", some "c"⟩)
     (by decide) (by decide)⟩
